import Mathlib

/-!
Verification of the Lineclaw casting-assistant core against its
natural-language specification.

The JavaScript source is shallowly embedded:
* JS strings are Lean `String`s; `String(x || "")` on a possibly-null
  argument is modelled with `Option String`.
* JS numbers that carry confidences, thresholds and timestamps are
  modelled as `ℚ` (exact decimals); `Number(v)` results that are not
  finite are modelled as `Option ℚ = none`.
* `text.includes(term)`, `trim()` and `toLowerCase()` are modelled by
  executable functions over `List Char` (`toLowerCase` mapped on the
  ASCII range; the keyword lists contain only ASCII letters and
  Japanese characters, which both engines leave unchanged).
* Fallible external calls (the OpenAI chat call) are modelled by an
  explicit outcome value (`LLMOutcome`), success carrying the parsed
  JSON fields and failure carrying the thrown error message.
-/

namespace Lineclaw

/-- JS `String.prototype.toLowerCase` restricted to the ASCII range:
uppercase ASCII letters are mapped to lowercase, everything else kept. -/
def jsLowerChar (c : Char) : Char :=
  if 65 ≤ c.toNat ∧ c.toNat ≤ 90 then Char.ofNat (c.toNat + 32) else c

/-- Model of `s.toLowerCase()`. -/
def jsToLower (s : String) : String :=
  ⟨s.data.map jsLowerChar⟩

/-- Whitespace characters removed by `String.prototype.trim`. -/
def jsIsWs (c : Char) : Bool :=
  c = ' ' || c = '\t' || c = '\n' || c = '\r'

/-- Model of `s.trim()`: drop leading and trailing whitespace. -/
def jsTrim (s : String) : String :=
  ⟨(((s.data.dropWhile jsIsWs).reverse.dropWhile jsIsWs).reverse)⟩

/-- Does `hay` start with `needle`? (structural helper for substring search) -/
def strStarts : List Char → List Char → Bool
  | [], _ => true
  | _ :: _, [] => false
  | a :: as, b :: bs => a = b && strStarts as bs

/-- Does `hay` contain `needle` as a contiguous substring? -/
def hasSub (needle : List Char) : List Char → Bool
  | [] => strStarts needle []
  | b :: bs => strStarts needle (b :: bs) || hasSub needle bs

/-- Model of JS `text.includes(term)`. -/
def jsIncludes (text term : String) : Bool :=
  hasSub term.data text.data

/-- Source `includesAny(text, terms)` from `src/lib/ai/classifier.js`:
`terms.some((term) => text.includes(term))`. -/
def includesAny (text : String) (terms : List String) : Bool :=
  terms.any (fun term => jsIncludes text term)

/-- Constant `VALID_INTENTS` from `src/lib/ai/classifier.js`. -/
def VALID_INTENTS : List String :=
  ["talent_ng_check", "scandal_risk_check", "contract_status",
   "expert_finder", "conflict_check", "general_casting_query",
   "sensitive", "unknown"]

/-- Constant `SENSITIVE_KEYWORDS` from `src/lib/ai/classifier.js`. -/
def SENSITIVE_KEYWORDS : List String :=
  ["legal", "lawyer", "contract dispute", "payment issue", "lawsuit",
   "harassment", "abuse", "違法", "訴訟", "弁護士", "契約トラブル",
   "支払いトラブル", "ハラスメント"]

/-- Constant `TALENT_NG_KEYWORDS` from `src/lib/ai/classifier.js`. -/
def TALENT_NG_KEYWORDS : List String :=
  ["使える", "使えますか", "起用", "キャスティング", "NG", "ng", "CM",
   "広告", "出演可能", "available", "can we use", "cast"]

/-- Constant `SCANDAL_RISK_KEYWORDS` from `src/lib/ai/classifier.js`. -/
def SCANDAL_RISK_KEYWORDS : List String :=
  ["リスク", "スキャンダル", "炎上", "週刊誌", "問題", "過去", "評判",
   "risk", "scandal", "controversy", "reputation"]

/-- Constant `CONTRACT_STATUS_KEYWORDS` from `src/lib/ai/classifier.js`. -/
def CONTRACT_STATUS_KEYWORDS : List String :=
  ["契約", "状況", "期限", "更新", "いつまで", "満了", "contract",
   "status", "expir", "renew"]

/-- Constant `EXPERT_FINDER_KEYWORDS` from `src/lib/ai/classifier.js`. -/
def EXPERT_FINDER_KEYWORDS : List String :=
  ["詳しい", "専門", "担当", "相談", "誰に聞けば", "韓国", "expert",
   "specialist", "who knows", "contact"]

/-- Constant `CONFLICT_CHECK_KEYWORDS` from `src/lib/ai/classifier.js`. -/
def CONFLICT_CHECK_KEYWORDS : List String :=
  ["競合", "抵触", "バッティング", "かぶり", "重複", "conflict",
   "overlap", "competing"]

/-- A classification result `{intent, confidence, is_sensitive, reason}`. -/
structure Classification where
  intent : String
  confidence : ℚ
  is_sensitive : Bool
  reason : String
deriving Repr, DecidableEq

/-- Source `clampConfidence(value, fallback)` from `src/lib/ai/classifier.js`:
`Number(value)` not finite (`none`) gives the fallback; otherwise the
parsed value clamped into `[0, 1]`. -/
def clampConfidence (value : Option ℚ) (fallback : ℚ) : ℚ :=
  match value with
  | none => fallback
  | some parsed =>
    if parsed < 0 then 0
    else if parsed > 1 then 1
    else parsed

/-- Model of `String(messageText || "").trim().toLowerCase()` — the canonical text
`heuristicClassify` works on (`none` models `null`/`undefined`). -/
def canonText (messageText : Option String) : String :=
  jsToLower (jsTrim (messageText.getD ""))

/-- Source `heuristicClassify(messageText)` from `src/lib/ai/classifier.js`,
lines 112–193: empty check, then the keyword categories in source
order (sensitive, conflict, scandal, talent-NG, contract, expert),
then the short-message and general fallbacks.  JS `text.length` counts
UTF-16 units; the model counts characters, which agrees on every
character of the keyword lists and of the Basic Multilingual Plane. -/
def heuristicClassify (messageText : Option String) : Classification :=
  let text := canonText messageText
  if text = "" then
    ⟨"unknown", 0.2, false, "Empty message"⟩
  else if includesAny text SENSITIVE_KEYWORDS then
    ⟨"sensitive", 0.2, true, "Sensitive keyword detected"⟩
  else if includesAny text CONFLICT_CHECK_KEYWORDS then
    ⟨"conflict_check", 0.82, false, "Conflict check keywords matched"⟩
  else if includesAny text SCANDAL_RISK_KEYWORDS then
    ⟨"scandal_risk_check", 0.80, false, "Scandal/risk keywords matched"⟩
  else if includesAny text TALENT_NG_KEYWORDS then
    ⟨"talent_ng_check", 0.85, false, "Talent NG/availability keywords matched"⟩
  else if includesAny text CONTRACT_STATUS_KEYWORDS then
    ⟨"contract_status", 0.78, false, "Contract status keywords matched"⟩
  else if includesAny text EXPERT_FINDER_KEYWORDS then
    ⟨"expert_finder", 0.75, false, "Expert finder keywords matched"⟩
  else if text.length < 8 then
    ⟨"unknown", 0.3, false, "Message too short for intent certainty"⟩
  else
    ⟨"general_casting_query", 0.5, false, "General casting inquiry"⟩

/-- Outcome of the external `openaiClient.chatJson` call inside
`InquiryClassifier.classify`: `ok` carries the parsed JSON fields
(`confidence := none` models a non-numeric value, and a `null` result
or missing intent is an `ok` whose intent is not in `VALID_INTENTS`);
`err` carries the message of the thrown error. -/
inductive LLMOutcome where
  | ok (intent : String) (confidence : Option ℚ) (isSensitive : Bool)
       (reason : Option String)
  | err (message : String)
deriving Repr, DecidableEq

/-- Source `InquiryClassifier.classify(input)` from `src/lib/ai/classifier.js`,
lines 201–233, as a function of the external-call outcome: when the
external AI is enabled and configured, a valid LLM result is returned
with clamped confidence (fallback 0.5) and sensitivity forced for the
"sensitive" intent; a thrown error is caught and answered by the
heuristic classification with a fallback reason; every other path
returns `heuristicClassify(input.message)`. -/
def classify (disableExternalAI configured : Bool) (llm : LLMOutcome)
    (message : Option String) : Classification :=
  if !disableExternalAI && configured then
    match llm with
    | .ok intent conf sens reason =>
      if VALID_INTENTS.contains intent then
        { intent := intent
          confidence := clampConfidence conf 0.5
          is_sensitive := sens || decide (intent = "sensitive")
          reason := reason.getD "LLM classification" }
      else heuristicClassify message
    | .err msg =>
      { heuristicClassify message with
          reason := "Fallback after LLM error: " ++ msg }
  else heuristicClassify message

/-! ## Configuration (`src/lib/config.js`) -/

/-- The value an environment variable contributes to `envNumber`:
`unset` models `undefined`/`null`/`""`, `numeric q` a string whose
`Number(value)` is the finite number `q`, and `nonNumeric` a string
whose `Number(value)` is not finite. -/
inductive EnvValue where
  | unset
  | numeric (q : ℚ)
  | nonNumeric
deriving Repr, DecidableEq

/-- Source `envNumber(env, key, fallback)` from `src/lib/config.js` lines 3–10:
unset or empty gives the fallback, a finite parse gives the parsed
number, a non-finite parse gives the fallback.  No clamping and no
validation is performed. -/
def envNumber (value : EnvValue) (fallback : ℚ) : ℚ :=
  match value with
  | .unset => fallback
  | .numeric q => q
  | .nonNumeric => fallback

/-- The two confidence-threshold environment variables consumed by
`loadConfig`. -/
structure ThresholdEnv where
  confidenceAnswerThreshold : EnvValue
  confidenceClarifyThreshold : EnvValue
deriving Repr, DecidableEq

/-- The `thresholds` record produced by `loadConfig`. -/
structure Thresholds where
  answer : ℚ
  clarify : ℚ
deriving Repr, DecidableEq

/-- The `thresholds` fragment of `loadConfig(env)` from
`src/lib/config.js` lines 27–30:
`answer := envNumber(env, "CONFIDENCE_ANSWER_THRESHOLD", 0.70)` and
`clarify := envNumber(env, "CONFIDENCE_CLARIFY_THRESHOLD", 0.45)`. -/
def loadConfigThresholds (env : ThresholdEnv) : Thresholds :=
  { answer := envNumber env.confidenceAnswerThreshold 0.70
    clarify := envNumber env.confidenceClarifyThreshold 0.45 }

/-! ## Assistant orchestrator, conversation memory and dedupe store

`AssistantService`, `ConversationMemory`, `RetentionService` and the
dedupe side of `InMemoryRepository` are referenced by
`src/lib/container.js` and exercised by `src/tests/assistant-flow.test.js`
but their source files are not part of the available tree, so they are
modelled from the specification (§4.1–§4.4).  Timestamps are epoch
milliseconds, modelled as `ℤ`. -/

/-- The action decided for a processed turn. -/
inductive Action where
  | answer
  | clarify
  | escalate
deriving Repr, DecidableEq

/-- Position of an action in the `answer → clarify → escalate` order the
spec's monotonicity property refers to. -/
def actionRank : Action → Nat
  | .answer => 0
  | .clarify => 1
  | .escalate => 2

/-- An escalation item handed to the Escalation Sink (spec §3):
the classification snapshot and a possibly-empty suggested reply. -/
structure EscalationItem where
  userId : String
  userText : String
  classification : Classification
  suggested_reply : String
deriving Repr, DecidableEq

/-- A Conversation Memory entry (spec §3 `ConversationLogEntry`). -/
structure LogEntry where
  userId : String
  userText : String
  assistantText : String
  intent : String
  confidence : ℚ
  action : Action
  createdAt : ℤ
  expiresAt : ℤ
deriving Repr, DecidableEq

/-- The mutable state the orchestrator touches: the dedupe store
(event id paired with its processed-at time), the conversation memory
(most recent entry first) and the escalation sink's queue. -/
structure AssistantState where
  dedupe : List (String × ℤ)
  memory : List LogEntry
  escalations : List EscalationItem
deriving Repr, DecidableEq

/-- Modelled from the spec: Dedupe Store §4.1 — an event id is "seen"
when it has an unexpired record, records older than the TTL being
treated as absent. -/
def dedupeSeen (dedupe : List (String × ℤ)) (eventId : String)
    (now ttlMs : ℤ) : Bool :=
  dedupe.any (fun r => r.1 = eventId && now < r.2 + ttlMs)

/-- Orchestrator configuration surface (spec §6): thresholds, the
conversation-retention window and the dedupe TTL, both in ms. -/
structure AssistantConfig where
  thresholds : Thresholds
  retentionMs : ℤ
  dedupeTtlMs : ℤ
deriving Repr, DecidableEq

/-- The reply texts produced by the Responder collaborator and the
best-effort draft used in a low-confidence escalation (spec §6). -/
structure ResponderTexts where
  answerText : String
  clarifyText : String
  escalationNotice : String
  draftReply : String
deriving Repr, DecidableEq

/-- An inbound webhook event as the orchestrator sees it (spec §3
`InboundEvent`); `isTextMessage` records whether the event is a text
message from a recognized source. -/
structure InboundEvent where
  eventId : String
  userId : String
  messageText : String
  isTextMessage : Bool
deriving Repr, DecidableEq

/-- The outcome of the decision policy for one classification. -/
structure DecisionOutcome where
  action : Action
  replyText : String
  escalation : Option EscalationItem
deriving Repr, DecidableEq

/-- Modelled from the spec: §4.4 step 5, the decision policy of
`AssistantService` (source not in the tree) — sensitive classifications
escalate with `suggested_reply` forced to the empty string; otherwise
the confidence is compared against the answer and clarify thresholds in
that order; the low-confidence escalation carries a best-effort draft
reply. -/
def runDecision (cfg : AssistantConfig) (resp : ResponderTexts)
    (userId userText : String) (cls : Classification) : DecisionOutcome :=
  if cls.is_sensitive then
    { action := .escalate
      replyText := resp.escalationNotice
      escalation := some ⟨userId, userText, cls, ""⟩ }
  else if cfg.thresholds.answer ≤ cls.confidence then
    { action := .answer, replyText := resp.answerText, escalation := none }
  else if cfg.thresholds.clarify ≤ cls.confidence then
    { action := .clarify, replyText := resp.clarifyText, escalation := none }
  else
    { action := .escalate
      replyText := resp.escalationNotice
      escalation := some ⟨userId, userText, cls, resp.draftReply⟩ }

/-- The structured result `handle` returns (spec §4.4). -/
structure HandleResult where
  status : String
  action : Option Action
  replyText : Option String
  classification : Option Classification
  escalation : Option EscalationItem
  eventId : String
deriving Repr, DecidableEq

/-- Modelled from the spec: §4.4 `AssistantService.handle(event)`
(source not in the tree), parameterised by the Classifier collaborator
`classifierFn` and the Responder texts.  Steps: (1) non-text events are
ignored without side effects; (2) the dedupe check-and-insert — an
already-seen id returns `status:"duplicate"` with no further side
effects; (3) the `whoami` utility command answers with the sender's id,
bypassing the Classifier; (4–5) classify and apply the decision policy;
(6) append one Conversation Memory entry with
`expires_at = now + retention`; (7) return the processed result. -/
def handle (cfg : AssistantConfig) (classifierFn : String → Classification)
    (resp : ResponderTexts) (st : AssistantState) (ev : InboundEvent)
    (now : ℤ) : HandleResult × AssistantState :=
  if ev.isTextMessage = false then
    (⟨"ignored", none, none, none, none, ev.eventId⟩, st)
  else if dedupeSeen st.dedupe ev.eventId now cfg.dedupeTtlMs then
    (⟨"duplicate", none, none, none, none, ev.eventId⟩, st)
  else
    let st1 : AssistantState := { st with dedupe := (ev.eventId, now) :: st.dedupe }
    if jsTrim ev.messageText = "whoami" then
      let cls : Classification := ⟨"utility_whoami", 1, false, "Utility command"⟩
      let reply := "Your LINE userId is " ++ ev.userId
      let entry : LogEntry :=
        ⟨ev.userId, ev.messageText, reply, cls.intent, cls.confidence,
         .answer, now, now + cfg.retentionMs⟩
      (⟨"processed", some .answer, some reply, some cls, none, ev.eventId⟩,
       { st1 with memory := entry :: st1.memory })
    else
      let cls := classifierFn ev.messageText
      let d := runDecision cfg resp ev.userId ev.messageText cls
      let entry : LogEntry :=
        ⟨ev.userId, ev.messageText, d.replyText, cls.intent, cls.confidence,
         d.action, now, now + cfg.retentionMs⟩
      let st2 : AssistantState :=
        { st1 with
            memory := entry :: st1.memory
            escalations :=
              match d.escalation with
              | some e => e :: st1.escalations
              | none => st1.escalations }
      (⟨"processed", some d.action, some d.replyText, some cls,
        d.escalation, ev.eventId⟩, st2)

/-! ## Retention sweeper -/

/-- Modelled from the spec: §4.3 `RetentionService.cleanup(nowMs)`
(source not in the tree) — deletes every Conversation Memory entry with
`expires_at <= nowMs`, keeps the rest in order, and returns the kept
memory together with `removedLogs`, the count removed. -/
def cleanup (memory : List LogEntry) (nowMs : ℤ) : List LogEntry × Nat :=
  (memory.filter (fun e => decide (nowMs < e.expiresAt)),
   (memory.filter (fun e => decide (e.expiresAt ≤ nowMs))).length)

/-! ## Webhook transport guard (`src/api/line/webhook.js`) -/

/-- One LINE webhook event as the transport guard inspects it:
`hasMessage` models the truthiness of `event.message`. -/
structure LineEvent where
  type : String
  hasMessage : Bool
  messageType : String
  messageText : Option String
deriving Repr, DecidableEq

/-- Per-request counters kept by `webhookHandler`
(`src/api/line/webhook.js` lines 56–64). -/
structure WebhookSummary where
  received : Nat
  replied : Nat
  escalated : Nat
  duplicates : Nat
  ignored : Nat
  errors : Nat
deriving Repr, DecidableEq

/-- Calls made to collaborators while processing one event. -/
structure CollaboratorCalls where
  classifierCalls : Nat
  responderCalls : Nat
  memoryAppends : Nat
  escalationRecords : Nat
  replyCalls : Nat
deriving Repr, DecidableEq

/-- No collaborator was called. -/
def noCalls : CollaboratorCalls := ⟨0, 0, 0, 0, 0⟩

/-- The guard of `src/api/line/webhook.js` line 78:
`event.type !== "message" || !event.message || event.message.type !== "text"`
negated — the event is a text message. -/
def isTextMessageEvent (ev : LineEvent) : Bool :=
  ev.type = "message" && ev.hasMessage && ev.messageType = "text"

/-- The per-event body of the `webhookHandler` loop
(`src/api/line/webhook.js` lines 66–171): a non-text event only
increments `summary.ignored` and `continue`s (lines 78–81), calling no
collaborator; the remainder of the loop body (lines 83–171: commands,
classification, assistant hand-off, reply, error accounting) is
abstracted as the `textBranch` parameter, which the theorems quantify
over. -/
def processWebhookEvent
    (textBranch : LineEvent → WebhookSummary → WebhookSummary × CollaboratorCalls)
    (ev : LineEvent) (s : WebhookSummary) : WebhookSummary × CollaboratorCalls :=
  if isTextMessageEvent ev then textBranch ev s
  else ({ s with ignored := s.ignored + 1 }, noCalls)

/-! ## Helper lemmas -/

lemma includesAny_empty_sensitive : includesAny "" SENSITIVE_KEYWORDS = false := by
  decide

lemma clampConfidence_mem (v : Option ℚ) (f : ℚ) (h0 : 0 ≤ f) (h1 : f ≤ 1) :
    0 ≤ clampConfidence v f ∧ clampConfidence v f ≤ 1 := by
  cases v with
  | none => exact ⟨h0, h1⟩
  | some q =>
    show 0 ≤ (if q < (0:ℚ) then 0 else if q > 1 then 1 else q) ∧
      (if q < (0:ℚ) then 0 else if q > 1 then 1 else q) ≤ 1
    split_ifs with hq0 hq1
    · norm_num
    · norm_num
    · constructor <;> linarith

lemma heuristicClassify_confidence_mem (m : Option String) :
    0 ≤ (heuristicClassify m).confidence ∧ (heuristicClassify m).confidence ≤ 1 := by
  simp only [heuristicClassify]
  split_ifs <;> constructor <;> norm_num

lemma length_filter_expiry (l : List LogEntry) (t : ℤ) :
    (l.filter (fun e => decide (t < e.expiresAt))).length +
      (l.filter (fun e => decide (e.expiresAt ≤ t))).length = l.length := by
  induction l with
  | nil => rfl
  | cons a l ih =>
    rcases lt_or_le t a.expiresAt with h | h
    · have h' : ¬ a.expiresAt ≤ t := not_le.mpr h
      simp only [List.filter_cons, decide_eq_true_eq, h, h', if_true, if_false,
        List.length_cons]
      omega
    · have h' : ¬ t < a.expiresAt := not_lt.mpr h
      simp only [List.filter_cons, decide_eq_true_eq, h, h', if_true, if_false,
        List.length_cons]
      omega

lemma handle_fresh (cfg : AssistantConfig) (f : String → Classification)
    (resp : ResponderTexts) (st : AssistantState) (ev : InboundEvent) (now : ℤ)
    (ht : ev.isTextMessage = true)
    (hnew : dedupeSeen st.dedupe ev.eventId now cfg.dedupeTtlMs = false) :
    (handle cfg f resp st ev now).1.status = "processed" ∧
    ∃ entry : LogEntry,
      (handle cfg f resp st ev now).2.memory = entry :: st.memory ∧
      (handle cfg f resp st ev now).2.dedupe = (ev.eventId, now) :: st.dedupe := by
  unfold handle
  rw [if_neg (by simp [ht]), if_neg (by simp [hnew])]
  by_cases hw : jsTrim ev.messageText = "whoami"
  · rw [if_pos hw]
    exact ⟨rfl, _, rfl, rfl⟩
  · rw [if_neg hw]
    exact ⟨rfl, _, rfl, rfl⟩

lemma handle_seen (cfg : AssistantConfig) (g : String → Classification)
    (resp : ResponderTexts) (st : AssistantState) (ev : InboundEvent) (now2 : ℤ)
    (ht : ev.isTextMessage = true)
    (hseen : dedupeSeen st.dedupe ev.eventId now2 cfg.dedupeTtlMs = true) :
    handle cfg g resp st ev now2 =
      (⟨"duplicate", none, none, none, none, ev.eventId⟩, st) := by
  unfold handle
  rw [if_neg (by simp [ht]), if_pos (by simp [hseen])]

/-! ## Claim theorems -/

/-- C10: for every input message that is null, undefined, empty, or
whitespace-only, `heuristicClassify` returns exactly
`{intent: "unknown", confidence: 0.2, is_sensitive: false}` (reason
"Empty message"); it is a total function, so it never throws. -/
theorem heuristic_empty_message (m : Option String)
    (h : jsTrim (m.getD "") = "") :
    heuristicClassify m = ⟨"unknown", 0.2, false, "Empty message"⟩ := by
  have hc : canonText m = "" := by
    rw [canonText, h]
    rfl
  simp [heuristicClassify, hc]

/-- Witness for C10 at the whitespace-only message `"   "`. -/
theorem heuristic_empty_message_witness :
    jsTrim ((some "   ").getD "") = "" ∧
    heuristicClassify (some "   ") = ⟨"unknown", 0.2, false, "Empty message"⟩ :=
  ⟨by decide, heuristic_empty_message (some "   ") (by decide)⟩

/-- C9: whenever the canonical (trimmed, lower-cased) message text
contains a sensitive keyword, `heuristicClassify` returns intent
"sensitive" with `is_sensitive = true` — regardless of which other
keyword categories also match, since the sensitive check is evaluated
before every other keyword category. -/
theorem heuristic_sensitive_precedence (m : Option String)
    (h : includesAny (canonText m) SENSITIVE_KEYWORDS = true) :
    heuristicClassify m = ⟨"sensitive", 0.2, true, "Sensitive keyword detected"⟩ := by
  have hne : ¬ canonText m = "" := by
    intro hc
    rw [hc] at h
    rw [includesAny_empty_sensitive] at h
    exact Bool.false_ne_true h
  simp [heuristicClassify, hne, h]

/-- Witness for C9: a message containing a sensitive keyword ("legal")
together with conflict, scandal-risk, talent-NG and contract-status
keywords still classifies as sensitive. -/
theorem heuristic_sensitive_precedence_witness :
    includesAny (canonText (some "Can we cast him? There is a legal conflict risk on his contract"))
      SENSITIVE_KEYWORDS = true ∧
    includesAny (canonText (some "Can we cast him? There is a legal conflict risk on his contract"))
      CONFLICT_CHECK_KEYWORDS = true ∧
    includesAny (canonText (some "Can we cast him? There is a legal conflict risk on his contract"))
      SCANDAL_RISK_KEYWORDS = true ∧
    includesAny (canonText (some "Can we cast him? There is a legal conflict risk on his contract"))
      TALENT_NG_KEYWORDS = true ∧
    includesAny (canonText (some "Can we cast him? There is a legal conflict risk on his contract"))
      CONTRACT_STATUS_KEYWORDS = true ∧
    heuristicClassify (some "Can we cast him? There is a legal conflict risk on his contract") =
      ⟨"sensitive", 0.2, true, "Sensitive keyword detected"⟩ :=
  ⟨by decide, by decide, by decide, by decide, by decide,
   heuristic_sensitive_precedence _ (by decide)⟩

/-- C5: when the external AI is enabled and configured and the LLM call
throws, `InquiryClassifier.classify` does not propagate the error: it
returns the deterministic heuristic classification of the message with
a reason noting the fallback, so a classifier dependency failure never
aborts the turn (the model is a total function). -/
theorem classify_llm_error_fallback (m : Option String) (e : String) :
    (classify false true (.err e) m).intent = (heuristicClassify m).intent ∧
    (classify false true (.err e) m).confidence = (heuristicClassify m).confidence ∧
    (classify false true (.err e) m).is_sensitive = (heuristicClassify m).is_sensitive ∧
    (classify false true (.err e) m).reason = "Fallback after LLM error: " ++ e := by
  simp [classify]

/-- C6: every classification produced by `classify` (LLM path included,
for every LLM-returned confidence, numeric or not) and by
`heuristicClassify` has confidence in the closed interval [0, 1]. -/
theorem classification_confidence_bounds :
    (∀ m : Option String,
       0 ≤ (heuristicClassify m).confidence ∧ (heuristicClassify m).confidence ≤ 1) ∧
    (∀ (d c : Bool) (llm : LLMOutcome) (m : Option String),
       0 ≤ (classify d c llm m).confidence ∧ (classify d c llm m).confidence ≤ 1) := by
  refine ⟨heuristicClassify_confidence_mem, ?_⟩
  intro d c llm m
  cases llm with
  | ok intent conf sens reason =>
    by_cases hdc : (!d && c) = true
    · by_cases hv : intent ∈ VALID_INTENTS
      · simpa [classify, hdc, hv] using
          clampConfidence_mem conf 0.5 (by norm_num) (by norm_num)
      · simpa [classify, hdc, hv] using heuristicClassify_confidence_mem m
    · simpa [classify, hdc] using heuristicClassify_confidence_mem m
  | err msg =>
    by_cases hdc : (!d && c) = true
    · simpa [classify, hdc] using heuristicClassify_confidence_mem m
    · simpa [classify, hdc] using heuristicClassify_confidence_mem m

/-- C7 counterexample: `loadConfig` performs no validation, so an
environment that sets `CONFIDENCE_CLARIFY_THRESHOLD=0.9` while leaving
the answer threshold at its default 0.70 yields a configuration that
violates `clarifyThreshold <= answerThreshold`. -/
theorem loadConfig_invariant_counterexample :
    ¬ ((loadConfigThresholds ⟨.unset, .numeric 0.9⟩).clarify ≤
       (loadConfigThresholds ⟨.unset, .numeric 0.9⟩).answer) := by
  simp only [loadConfigThresholds, envNumber]
  norm_num

/-- C7 (amended): when the threshold environment variables are unset,
`loadConfig` defaults to `answerThreshold = 0.70` and
`clarifyThreshold = 0.45`, and these defaults satisfy
`0 <= clarifyThreshold <= answerThreshold <= 1`; the invariant is not
enforced for arbitrary environments. -/
theorem loadConfig_defaults :
    loadConfigThresholds ⟨.unset, .unset⟩ = ⟨0.70, 0.45⟩ ∧
    0 ≤ (loadConfigThresholds ⟨.unset, .unset⟩).clarify ∧
    (loadConfigThresholds ⟨.unset, .unset⟩).clarify ≤
      (loadConfigThresholds ⟨.unset, .unset⟩).answer ∧
    (loadConfigThresholds ⟨.unset, .unset⟩).answer ≤ 1 := by
  refine ⟨rfl, ?_, ?_, ?_⟩ <;>
    · simp only [loadConfigThresholds, envNumber]
      norm_num

/-- C8: an inbound webhook event that is not a text message (wrong event
type, absent message, or non-text message type) only increments the
`ignored` counter: no classifier, responder, memory, escalation, or
reply call is made for it, the `errors` counter is untouched, and this
holds for every behaviour of the text-message continuation. -/
theorem webhook_non_text_ignored
    (branch : LineEvent → WebhookSummary → WebhookSummary × CollaboratorCalls)
    (ev : LineEvent) (s : WebhookSummary)
    (h : ev.type ≠ "message" ∨ ev.hasMessage = false ∨ ev.messageType ≠ "text") :
    processWebhookEvent branch ev s = ({ s with ignored := s.ignored + 1 }, noCalls) ∧
    (processWebhookEvent branch ev s).1.errors = s.errors := by
  have hf : isTextMessageEvent ev = false := by
    rcases h with h | h | h <;> simp [isTextMessageEvent, h]
  refine ⟨?_, ?_⟩ <;> simp [processWebhookEvent, hf]

/-- Witness for C8 at a follow event (no message payload). -/
theorem webhook_non_text_ignored_witness :
    processWebhookEvent (fun _ s => (s, noCalls)) ⟨"follow", false, "", none⟩
        ⟨1, 0, 0, 0, 0, 0⟩ =
      (⟨1, 0, 0, 0, 1, 0⟩, noCalls) := by
  have h := webhook_non_text_ignored (fun _ s => (s, noCalls))
    ⟨"follow", false, "", none⟩ ⟨1, 0, 0, 0, 0, 0⟩ (Or.inl (by decide))
  exact h.1

/-- C4: for every memory state and time `t`, the retention sweep keeps
exactly the entries with `expires_at > t` (in order, unchanged), reports
as `removedLogs` the number of entries with `expires_at <= t`
(kept + removed = total), and running the sweep again on the result
immediately removes 0. -/
theorem cleanup_retention_correct (m : List LogEntry) (t : ℤ) :
    (∀ e : LogEntry, e ∈ (cleanup m t).1 ↔ (e ∈ m ∧ t < e.expiresAt)) ∧
    (cleanup m t).1.Sublist m ∧
    (cleanup m t).1.length + (cleanup m t).2 = m.length ∧
    (cleanup (cleanup m t).1 t).1 = (cleanup m t).1 ∧
    (cleanup (cleanup m t).1 t).2 = 0 := by
  refine ⟨?_, ?_, ?_, ?_, ?_⟩
  · intro e
    simp [cleanup, List.mem_filter]
  · exact List.filter_sublist m
  · exact length_filter_expiry m t
  · show ((m.filter _).filter _) = m.filter _
    apply List.filter_eq_self.mpr
    intro a ha
    exact (List.mem_filter.mp ha).2
  · show ((m.filter _).filter _).length = 0
    rw [List.length_eq_zero]
    apply List.filter_eq_nil_iff.mpr
    intro a ha
    have h1 : t < a.expiresAt := by simpa using (List.mem_filter.mp ha).2
    simp
    linarith

/-- C3: for a non-sensitive classification under thresholds satisfying
`clarify <= answer`, the decided action is "answer" exactly when
`confidence >= answerThreshold`, "clarify" exactly when
`clarifyThreshold <= confidence < answerThreshold`, "escalate" exactly
when `confidence < clarifyThreshold`; lowering the confidence never
moves the action backwards in the `answer → clarify → escalate` order;
and no escalation item is created on the answer or clarify branches. -/
theorem decision_threshold_policy
    (cfg : AssistantConfig) (resp : ResponderTexts) (uid txt : String)
    (c : Classification)
    (hth : cfg.thresholds.clarify ≤ cfg.thresholds.answer)
    (hs : c.is_sensitive = false) :
    ((runDecision cfg resp uid txt c).action = .answer ↔
      cfg.thresholds.answer ≤ c.confidence) ∧
    ((runDecision cfg resp uid txt c).action = .clarify ↔
      (cfg.thresholds.clarify ≤ c.confidence ∧
       c.confidence < cfg.thresholds.answer)) ∧
    ((runDecision cfg resp uid txt c).action = .escalate ↔
      c.confidence < cfg.thresholds.clarify) ∧
    (∀ c' : Classification, c'.is_sensitive = false →
      c'.confidence ≤ c.confidence →
      actionRank (runDecision cfg resp uid txt c).action ≤
        actionRank (runDecision cfg resp uid txt c').action) ∧
    ((runDecision cfg resp uid txt c).escalation = none ∨
     (runDecision cfg resp uid txt c).action = .escalate) := by
  have hrank : ∀ c' : Classification, c'.is_sensitive = false →
      ∀ r : Nat, r ≤ 2 →
      (cfg.thresholds.answer ≤ c'.confidence → r ≤ 0) →
      ((c'.confidence < cfg.thresholds.answer ∧
        cfg.thresholds.clarify ≤ c'.confidence) → r ≤ 1) →
      r ≤ actionRank (runDecision cfg resp uid txt c').action := by
    intro c' hs' r h2 h0 h1
    simp only [runDecision, hs', Bool.false_eq_true, if_false]
    split_ifs with ha' hc'
    · exact h0 ha'
    · exact h1 ⟨not_le.mp ha', hc'⟩
    · exact h2
  simp only [runDecision, hs, Bool.false_eq_true, if_false]
  split_ifs with ha hc
  · refine ⟨⟨fun _ => ha, fun _ => rfl⟩, ?_, ?_, ?_, Or.inl rfl⟩
    · exact ⟨fun h => (nomatch h), fun h => absurd ha (not_le.mpr h.2)⟩
    · exact ⟨fun h => (nomatch h),
        fun h => absurd ha (not_le.mpr (lt_of_lt_of_le h hth))⟩
    · intro c' hs' hle
      exact Nat.zero_le _
  · refine ⟨⟨fun h => (nomatch h), fun h => absurd h ha⟩,
      ⟨fun _ => ⟨hc, not_le.mp ha⟩, fun _ => rfl⟩,
      ⟨fun h => (nomatch h), fun h => absurd hc (not_le.mpr h)⟩, ?_, Or.inl rfl⟩
    intro c' hs' hle
    exact hrank c' hs' 1 (by norm_num)
      (fun h => absurd (le_trans h hle) ha) (fun _ => le_refl 1)
  · refine ⟨⟨fun h => (nomatch h), fun h => absurd h ha⟩,
      ⟨fun h => (nomatch h), fun h => absurd h.1 hc⟩,
      ⟨fun _ => not_le.mp hc, fun _ => rfl⟩, ?_, Or.inr rfl⟩
    intro c' hs' hle
    exact hrank c' hs' 2 (le_refl 2)
      (fun h => absurd (le_trans h hle) ha)
      (fun h => absurd (le_trans h.2 hle) hc)

/-- Witness for C3 with the default thresholds and a non-sensitive
classification of confidence 0.5, which must clarify. -/
theorem decision_threshold_policy_witness :
    (0.45 : ℚ) ≤ 0.70 ∧
    ((runDecision ⟨⟨0.70, 0.45⟩, 1000, 5000⟩ ⟨"a", "c", "e", "d"⟩ "U1" "hi"
        ⟨"general_casting_query", 0.5, false, "General casting inquiry"⟩).action = .clarify ↔
      ((0.45 : ℚ) ≤ 0.5 ∧ (0.5 : ℚ) < 0.70)) :=
  ⟨by norm_num,
   (decision_threshold_policy ⟨⟨0.70, 0.45⟩, 1000, 5000⟩ ⟨"a", "c", "e", "d"⟩ "U1" "hi"
      ⟨"general_casting_query", 0.5, false, "General casting inquiry"⟩
      (by norm_num) rfl).2.1⟩

/-- C1: handling a fresh text event returns `status:"processed"` and
appends exactly one Conversation Memory entry; handling the identical
event again within the dedupe TTL returns `status:"duplicate"` with no
state change at all (no log append, no escalation) and without
consulting the classifier (the result is the same for every classifier
function `g`). -/
theorem handle_duplicate_idempotent
    (cfg : AssistantConfig) (f : String → Classification)
    (resp : ResponderTexts) (st : AssistantState) (ev : InboundEvent)
    (now now2 : ℤ)
    (ht : ev.isTextMessage = true)
    (hnew : dedupeSeen st.dedupe ev.eventId now cfg.dedupeTtlMs = false)
    (hwin : now2 < now + cfg.dedupeTtlMs) :
    (handle cfg f resp st ev now).1.status = "processed" ∧
    (handle cfg f resp st ev now).2.memory.length = st.memory.length + 1 ∧
    ∀ g : String → Classification,
      handle cfg g resp (handle cfg f resp st ev now).2 ev now2 =
        (⟨"duplicate", none, none, none, none, ev.eventId⟩,
         (handle cfg f resp st ev now).2) := by
  obtain ⟨hstat, entry, hmem, hded⟩ := handle_fresh cfg f resp st ev now ht hnew
  refine ⟨hstat, by rw [hmem]; simp, ?_⟩
  intro g
  apply handle_seen cfg g resp _ ev now2 ht
  rw [hded]
  simp [dedupeSeen, hwin]

/-- Witness for C1: a concrete fresh event processed at t=0 and replayed
at t=1 under a 5000 ms TTL. -/
theorem handle_duplicate_idempotent_witness :
    (handle ⟨⟨0.70, 0.45⟩, 1000, 5000⟩ (fun s => heuristicClassify (some s))
        ⟨"a", "c", "e", "d"⟩ ⟨[], [], []⟩ ⟨"evt1", "U1", "hello", true⟩ 0).1.status =
      "processed" ∧
    (handle ⟨⟨0.70, 0.45⟩, 1000, 5000⟩ (fun s => heuristicClassify (some s))
        ⟨"a", "c", "e", "d"⟩ ⟨[], [], []⟩ ⟨"evt1", "U1", "hello", true⟩ 0).2.memory.length = 1 ∧
    handle ⟨⟨0.70, 0.45⟩, 1000, 5000⟩ (fun _ => ⟨"sensitive", 1, true, "x"⟩)
        ⟨"a", "c", "e", "d"⟩
        (handle ⟨⟨0.70, 0.45⟩, 1000, 5000⟩ (fun s => heuristicClassify (some s))
          ⟨"a", "c", "e", "d"⟩ ⟨[], [], []⟩ ⟨"evt1", "U1", "hello", true⟩ 0).2
        ⟨"evt1", "U1", "hello", true⟩ 1 =
      (⟨"duplicate", none, none, none, none, "evt1"⟩,
       (handle ⟨⟨0.70, 0.45⟩, 1000, 5000⟩ (fun s => heuristicClassify (some s))
          ⟨"a", "c", "e", "d"⟩ ⟨[], [], []⟩ ⟨"evt1", "U1", "hello", true⟩ 0).2) := by
  have h := handle_duplicate_idempotent ⟨⟨0.70, 0.45⟩, 1000, 5000⟩
    (fun s => heuristicClassify (some s)) ⟨"a", "c", "e", "d"⟩ ⟨[], [], []⟩
    ⟨"evt1", "U1", "hello", true⟩ 0 1 rfl rfl (by decide)
  exact ⟨h.1, h.2.1, h.2.2 (fun _ => ⟨"sensitive", 1, true, "x"⟩)⟩

/-- C2: for every classifier result with `is_sensitive = true` —
whatever its confidence — handling a fresh text event (that is not the
`whoami` utility command) yields `status:"processed"`, action
"escalate", and an escalation item whose `suggested_reply` is the empty
string. -/
theorem handle_sensitive_escalates
    (cfg : AssistantConfig) (f : String → Classification)
    (resp : ResponderTexts) (st : AssistantState) (ev : InboundEvent) (now : ℤ)
    (ht : ev.isTextMessage = true)
    (hnew : dedupeSeen st.dedupe ev.eventId now cfg.dedupeTtlMs = false)
    (hwho : ¬ jsTrim ev.messageText = "whoami")
    (hs : (f ev.messageText).is_sensitive = true) :
    (handle cfg f resp st ev now).1.status = "processed" ∧
    (handle cfg f resp st ev now).1.action = some .escalate ∧
    (handle cfg f resp st ev now).1.escalation =
      some ⟨ev.userId, ev.messageText, f ev.messageText, ""⟩ := by
  unfold handle
  rw [if_neg (by simp [ht]), if_neg (by simp [hnew]), if_neg hwho]
  simp [runDecision, hs]

/-- Witness for C2: a sensitive classification with confidence 0.99
(above the answer threshold) still escalates with an empty suggested
reply. -/
theorem handle_sensitive_escalates_witness :
    (handle ⟨⟨0.70, 0.45⟩, 1000, 5000⟩ (fun _ => ⟨"sensitive", 0.99, true, "r"⟩)
        ⟨"a", "c", "e", "d"⟩ ⟨[], [], []⟩
        ⟨"evt2", "U1", "I have a legal contract dispute", true⟩ 0).1.status =
      "processed" ∧
    (handle ⟨⟨0.70, 0.45⟩, 1000, 5000⟩ (fun _ => ⟨"sensitive", 0.99, true, "r"⟩)
        ⟨"a", "c", "e", "d"⟩ ⟨[], [], []⟩
        ⟨"evt2", "U1", "I have a legal contract dispute", true⟩ 0).1.action =
      some .escalate ∧
    (handle ⟨⟨0.70, 0.45⟩, 1000, 5000⟩ (fun _ => ⟨"sensitive", 0.99, true, "r"⟩)
        ⟨"a", "c", "e", "d"⟩ ⟨[], [], []⟩
        ⟨"evt2", "U1", "I have a legal contract dispute", true⟩ 0).1.escalation =
      some ⟨"U1", "I have a legal contract dispute",
            ⟨"sensitive", 0.99, true, "r"⟩, ""⟩ :=
  handle_sensitive_escalates ⟨⟨0.70, 0.45⟩, 1000, 5000⟩
    (fun _ => ⟨"sensitive", 0.99, true, "r"⟩) ⟨"a", "c", "e", "d"⟩ ⟨[], [], []⟩
    ⟨"evt2", "U1", "I have a legal contract dispute", true⟩ 0 rfl rfl
    (by decide) rfl

end Lineclaw
